import Mathlib

/-!
Shallow embedding of `src/api_mcp_fastapi_server.py` (a FastAPI MCP server
template for Google Cloud Run with a GCS FUSE mount).

Filesystem and environment effects are made explicit:
* each `Path.is_file()` call in the Python code becomes a boolean observation
  supplied to the embedded function (the filesystem is an external environment
  that answers each existence query);
* `os.environ.get` becomes an `Option String` argument;
* Python exceptions (`raise`) become `Except String`;
* `await asyncio.sleep(...)` becomes a counted sleep event;
* the randomness of `gcp_fileio_test` becomes a character-choice function.

Python `float` request numbers are modelled as `Rat`; the control flow of the
handlers does not depend on rounding.
-/

namespace GcpMcp

/-- Equality on `Except` is decidable when it is on both components. -/
instance instDecEqExcept {ε α : Type} [DecidableEq ε] [DecidableEq α] :
    DecidableEq (Except ε α) := fun x y =>
  match x, y with
  | .ok a, .ok b =>
    if h : a = b then .isTrue (by rw [h]) else .isFalse (by simp [h])
  | .error a, .error b =>
    if h : a = b then .isTrue (by rw [h]) else .isFalse (by simp [h])
  | .ok _, .error _ => .isFalse (by simp)
  | .error _, .ok _ => .isFalse (by simp)

/-- `Path.joinpath` on Linux: append a single child component. -/
def joinpath (p child : String) : String := p ++ "/" ++ child

/-- The default used by `os.environ.get('MOUNT_PATH', '/mnt/storage')`. -/
def MOUNT_PATH_DEFAULT : String := "/mnt/storage"

/-- The shape of the `app_config` dictionary (module level and
`app.state.app_config`).  The two path-valued entries are `Option` because the
module-level dictionary initialises them to Python `None`. -/
structure AppConfig where
  llm_provider : String
  embedding_model : String
  max_step_iterations : Nat
  path_chroma_db : Option String
  chroma_collection_name : String
  bucket_mount_path : Option String
deriving DecidableEq

/-- The module-level `app_config` dictionary (lines 95-102 of the server). -/
def app_config : AppConfig :=
  { llm_provider := "openai"
    embedding_model := "text-embedding-3-small"
    max_step_iterations := 3
    path_chroma_db := none
    chroma_collection_name := "Biography_of_Christopher_Diaz"
    bucket_mount_path := none }

/-- A JSON body `{"status": ..., "message": ...}` as returned by `/ready`
and `/`. -/
structure StatusResponse where
  status : String
  message : String
deriving DecidableEq

/-- Outcome of one HTTP handler call: a normal JSON response or a raised
`HTTPException(status_code, detail)`. -/
inductive ProbeResult where
  | ok (resp : StatusResponse)
  | httpError (statusCode : Nat) (detail : String)
deriving DecidableEq

/-- Whether a handler outcome is a non-exceptional response. -/
def ProbeResult.isOk : ProbeResult → Bool
  | .ok _ => true
  | .httpError _ _ => false

/-- Observable effects of one call to the `/ready` handler `startup_probe`:
its result, the value of the global `probe_succeeded` flag after the call, how
many filesystem existence checks it performed, and how many sleeps. -/
structure ProbeCall where
  result : ProbeResult
  probe_succeeded : Bool
  fsChecks : Nat
  sleeps : Nat
deriving DecidableEq

/-- One call of `startup_probe` (lines 376-400): `probe_succeeded` is the
global flag before the call, `dotenv_is_file` is the answer the filesystem
gives to `dotenv_path.is_file()` (consulted only when the flag is still
false). -/
def startup_probe (probe_succeeded : Bool) (dotenv_is_file : Bool) : ProbeCall :=
  if probe_succeeded then
    { result := .ok { status := "ok", message := "FUSE mount and probe confirmed ready." }
      probe_succeeded := true
      fsChecks := 0
      sleeps := 0 }
  else if dotenv_is_file then
    { result := .ok { status := "ok", message := "FUSE mount ready, application is starting up." }
      probe_succeeded := true
      fsChecks := 1
      sleeps := 0 }
  else
    { result := .httpError 503 "Waiting for GCS FUSE mount to stabilize."
      probe_succeeded := false
      fsChecks := 1
      sleeps := 0 }

/-- The trace of repeated `/ready` calls: `runProbeAt flag obs n` is the
`n`-th call (0-based) when the process starts with flag value `flag` and the
filesystem answers the existence query of call `n` with `obs n`.  The flag is
threaded from call to call exactly as the Python global is. -/
def runProbeAt (flag : Bool) (obs : Nat → Bool) : Nat → ProbeCall
  | 0 => startup_probe flag (obs 0)
  | n + 1 => startup_probe (runProbeAt flag obs n).probe_succeeded (obs (n + 1))

/-- Observable outcome of the deployed-mode wait loop of `lifespan`
(lines 266-282): number of `is_file` checks performed, number of
`asyncio.sleep(check_period)` calls, whether `load_dotenv` ran (marker found),
and whether the for-else `CRITICAL WARNING` diagnostic was printed. -/
structure WaitResult where
  checks : Nat
  sleeps : Nat
  loaded : Bool
  critical_warning : Bool
deriving DecidableEq

/-- The body of `for i in range(max_checks): ...` starting at iteration `i`
with `remaining` iterations left; `obs k` answers the `is_file` check of
iteration `k`.  A failed check sleeps before the next iteration (also on the
last iteration, as in the source); exhaustion triggers the `else` branch. -/
def waitFrom (obs : Nat → Bool) (i : Nat) : Nat → WaitResult
  | 0 => { checks := 0, sleeps := 0, loaded := false, critical_warning := true }
  | r + 1 =>
    if obs i then
      { checks := 1, sleeps := 0, loaded := true, critical_warning := false }
    else
      let rest := waitFrom obs (i + 1) r
      { checks := rest.checks + 1
        sleeps := rest.sleeps + 1
        loaded := rest.loaded
        critical_warning := rest.critical_warning }

/-- `max_checks = 10` in `lifespan`. -/
def max_checks : Nat := 10

/-- `check_period = 0.5` seconds: the duration of each counted sleep. -/
def check_period : Rat := 1 / 2

/-- The whole wait loop of `lifespan`. -/
def lifespanWait (obs : Nat → Bool) : WaitResult := waitFrom obs 0 max_checks

/-- External environment of one `lifespan` run:
* `credentials_exist`: result of `gcp_json_credentials_exist()`;
* `cwd`: `Path.cwd()` as a string;
* `cwd_dotenv_is_file`: the `dotenv_path.is_file()` answer in the local branch;
* `mount_path_env`: `os.environ.get('MOUNT_PATH')`;
* `mount_obs k`: the `dotenv_path.is_file()` answer of wait-loop check `k`. -/
structure LifespanInput where
  credentials_exist : Bool
  cwd : String
  cwd_dotenv_is_file : Bool
  mount_path_env : Option String
  mount_obs : Nat → Bool

/-- Observable outcome of `lifespan` up to and including the publication of
`app.state.app_config` (lines 243-303): the resolved `path_bucket_mount`
local, the published record, which `.env` path (if any) was passed to
`load_dotenv`, the wait-loop counters, and whether the critical diagnostic was
emitted. -/
structure ConfigOutcome where
  path_bucket_mount : String
  app_state_config : AppConfig
  loaded_dotenv : Option String
  wait_checks : Nat
  wait_sleeps : Nat
  critical_warning : Bool
deriving DecidableEq

/-- The dictionary literal assigned to `app.state.app_config`
(lines 296-303). -/
def mkAppStateConfig (path_bucket_mount : String) : AppConfig :=
  { llm_provider := "openai"
    embedding_model := "text-embedding-3-small"
    max_step_iterations := 3
    path_chroma_db := some (joinpath "/tmp" "chroma_langchain_db")
    chroma_collection_name := "Biography_of_Christopher_Diaz"
    bucket_mount_path := some path_bucket_mount }

/-- `lifespan` from its start through the `app.state.app_config` assignment
(lines 243-303).  The local branch raises when the local `.env` file is
missing; the deployed branch runs the bounded wait loop and proceeds in either
case. -/
def lifespanUpToConfig (inp : LifespanInput) : Except String ConfigOutcome :=
  if inp.credentials_exist then
    let path_bucket_mount := inp.cwd
    let dotenv_path := joinpath path_bucket_mount ".env"
    if !inp.cwd_dotenv_is_file then
      .error ("CRITICAL: .env file not found locally at " ++ dotenv_path ++ ". Cannot start.")
    else
      .ok { path_bucket_mount := path_bucket_mount
            app_state_config := mkAppStateConfig path_bucket_mount
            loaded_dotenv := some dotenv_path
            wait_checks := 0
            wait_sleeps := 0
            critical_warning := false }
  else
    let path_bucket_mount := (inp.mount_path_env).getD MOUNT_PATH_DEFAULT
    let dotenv_path := joinpath path_bucket_mount ".env"
    let w := lifespanWait inp.mount_obs
    .ok { path_bucket_mount := path_bucket_mount
          app_state_config := mkAppStateConfig path_bucket_mount
          loaded_dotenv := if w.loaded then some dotenv_path else none
          wait_checks := w.checks
          wait_sleeps := w.sleeps
          critical_warning := w.critical_warning }

/-- External environment of one `gcp_fileio_test` call (lines 201-233).  Each
field answers one filesystem query, in program order:
* `is_file_initial`: the `is_file` guard before the `unlink`;
* `is_file_after_delete`: the `is_file` check whose `true` answer raises
  `Unable to delete file ...`;
* `rnd l i`: character `i` of random line `l` (the `random.choice` stream);
* `is_file_after_write`: the `is_file` check whose `false` answer raises
  `File not found ...`;
* `read_lines`: what `f.readlines()` returns (one entry per line). -/
structure FileIOEnv where
  is_file_initial : Bool
  is_file_after_delete : Bool
  rnd : Nat → Nat → Char
  is_file_after_write : Bool
  read_lines : List String

/-- The five random 40-character lines written by `gcp_fileio_test`. -/
def writtenLines (env : FileIOEnv) : List String :=
  (List.range 5).map (fun l => String.mk ((List.range 40).map (env.rnd l)))

/-- Whitespace as recognised by Python `str.strip()` (the characters that
occur in text lines here). -/
def isWS (c : Char) : Bool :=
  c == Char.ofNat 32 || c == Char.ofNat 10 || c == Char.ofNat 9 || c == Char.ofNat 13

/-- Python `str.strip()`: drop whitespace from both ends. -/
def pyStrip (s : String) : String :=
  String.mk (((s.data.dropWhile isWS).reverse.dropWhile isWS).reverse)

/-- Observable outcome of a successful `gcp_fileio_test`: the lines written
and the stripped non-blank lines printed while reading back. -/
structure FileIOResult where
  written : List String
  printed : List String
deriving DecidableEq

/-- `gcp_fileio_test(path_mount)` (lines 201-233): delete any stale test file,
write five random 40-character lines, check the file exists, read it back and
print each stripped non-blank line.  The read-back lines are printed, never
compared with the written ones.  Failures are raised exceptions. -/
def gcp_fileio_test (path_mount : String) (env : FileIOEnv) :
    Except String FileIOResult :=
  let path_file := joinpath path_mount "text_file_utf8.txt"
  if env.is_file_after_delete then
    .error ("Unable to delete file " ++ path_file)
  else
    let written := writtenLines env
    if !env.is_file_after_write then
      .error ("File not found " ++ path_file)
    else
      .ok { written := written
            printed := (env.read_lines.map pyStrip).filter (fun s => s.length > 0) }

/-- The constant `Path("/tmp").joinpath("chroma_langchain_db")`. -/
def path_chroma_db_dir : String := joinpath "/tmp" "chroma_langchain_db"

/-- The whole `lifespan` startup sequence through the `yield` (lines 240-324):
the configuration phase, then `gcp_fileio_test` on the bucket mount, then (in
deployed mode only) `gcp_fileio_test` on the `/tmp` Chroma directory.  An
`.ok` value means the `yield` was reached with the published configuration;
an `.error` is an exception that escaped `lifespan` (startup aborted). -/
def lifespan (inp : LifespanInput) (envMount envTmp : FileIOEnv) :
    Except String ConfigOutcome :=
  match lifespanUpToConfig inp with
  | .error e => .error e
  | .ok o =>
    match gcp_fileio_test o.path_bucket_mount envMount with
    | .error e => .error e
    | .ok _ =>
      if inp.credentials_exist then
        .ok o
      else
        match gcp_fileio_test path_chroma_db_dir envTmp with
        | .error e => .error e
        | .ok _ => .ok o

/-- Request schema of `/api/calculator` (Pydantic model `ToolInput`);
`operation` defaults to `"add"`. -/
structure ToolInput where
  num1 : Rat
  num2 : Rat
  operation : String := "add"

/-- Response schema of `/api/calculator` (Pydantic model `ToolOutput`). -/
structure ToolOutput where
  result : Rat
  message : String
deriving DecidableEq

/-- A single-quote character, for the unsupported-operation message. -/
def squote : String := String.singleton (Char.ofNat 39)

/-- The `/api/calculator` handler `simple_calculator` (lines 436-452). -/
def simple_calculator (input_data : ToolInput) : ToolOutput :=
  if input_data.operation = "add" then
    { result := input_data.num1 + input_data.num2
      message := "Successfully calculated the sum of " ++ toString input_data.num1
        ++ " and " ++ toString input_data.num2 ++ "." }
  else
    { result := input_data.num1 + input_data.num2
      message := "Operation " ++ squote ++ input_data.operation ++ squote
        ++ " not supported yet. Defaulting to addition." }

/-- Python truthiness of `os.environ.get(...)`: `None` and the empty string
are falsy, every other string is truthy. -/
def pyTruthy : Option String → Bool
  | none => false
  | some s => !(s == "")

/-- The `/` handler `read_root` (lines 403-433): it reads the published
configuration (for logging) and checks `OPENAI_API_KEY` with Python
truthiness; both branches are HTTP 200 with status `"ok"`. -/
def read_root (config : AppConfig) (openai_key_val : Option String) :
    StatusResponse :=
  if pyTruthy openai_key_val then
    { status := "ok", message := "Server is running. See /docs for API schema." }
  else
    { status := "ok", message := "Server is running, BUT OPENAI_API_KEY not found!." }

/-- Process-wide mutable state of the server: the `probe_succeeded` global,
`app.state.app_config` (absent until `lifespan` publishes it), and the
module-level `app_config` dictionary. -/
structure ServerState where
  probe_succeeded : Bool
  app_state_config : Option AppConfig
  module_app_config : AppConfig
deriving DecidableEq

/-- The state at module load: flag `false`, no `app.state.app_config`,
module dictionary as initialised. -/
def initialState : ServerState :=
  { probe_succeeded := false
    app_state_config := none
    module_app_config := app_config }

/-- One incoming HTTP request together with the external observations its
handler makes: the filesystem answer for `/ready`, the `OPENAI_API_KEY`
value for `/`, the body for `/api/calculator`. -/
inductive Request where
  | ready (dotenv_is_file : Bool)
  | root (openai_key_val : Option String)
  | calculator (input_data : ToolInput)

/-- A handler response, tagged by endpoint. -/
inductive Response where
  | probe (r : ProbeResult)
  | dict (r : StatusResponse)
  | tool (r : ToolOutput)

/-- Dispatch one request against the process state.  `none` as the response
models an uncaught Python error: `/` raises `AttributeError` when
`app.state.app_config` was never published. -/
def handle : Request → ServerState → ServerState × Option Response
  | .ready e, s =>
    let c := startup_probe s.probe_succeeded e
    ({ s with probe_succeeded := c.probe_succeeded }, some (.probe c.result))
  | .root key, s =>
    match s.app_state_config with
    | some cfg => (s, some (.dict (read_root cfg key)))
    | none => (s, none)
  | .calculator input_data, s => (s, some (.tool (simple_calculator input_data)))

/-- Running `lifespan` as a transition on the process state: on success it
stores the published record in `app.state.app_config` and touches nothing
else; on failure the state is not reached (startup aborted). -/
def lifespanOp (inp : LifespanInput) (envMount envTmp : FileIOEnv)
    (s : ServerState) : Except String ServerState :=
  match lifespan inp envMount envTmp with
  | .error e => .error e
  | .ok o => .ok { s with app_state_config := some o.app_state_config }

/-! ### Concrete runs used as witnesses and counterexamples -/

/-- The response of `startup_probe` once the flag is already set. -/
def probeConfirmedCall : ProbeCall :=
  { result := .ok { status := "ok", message := "FUSE mount and probe confirmed ready." }
    probe_succeeded := true
    fsChecks := 0
    sleeps := 0 }

/-- Input for the concrete degraded-startup run: deployed mode, marker never
appears. -/
def inpC2 : LifespanInput :=
  { credentials_exist := false, cwd := "/app", cwd_dotenv_is_file := true
    mount_path_env := none, mount_obs := fun _ => false }

/-- Input for the concrete found-on-third-check run. -/
def inpC3 : LifespanInput :=
  { credentials_exist := false, cwd := "/app", cwd_dotenv_is_file := true
    mount_path_env := none, mount_obs := fun k => k == 2 }

/-- Input for the concrete local-mode run with a missing `.env` file. -/
def inpC4 : LifespanInput :=
  { credentials_exist := true, cwd := "/home/user/project"
    cwd_dotenv_is_file := false, mount_path_env := none
    mount_obs := fun _ => false }

/-- A fully healthy filesystem environment for `gcp_fileio_test`. -/
def envOk : FileIOEnv :=
  { is_file_initial := true, is_file_after_delete := false
    rnd := fun _ _ => Char.ofNat 97, is_file_after_write := true
    read_lines := ["abc"] }

/-- Input for the concrete deployed run with an explicit mount path. -/
def inpC8 : LifespanInput :=
  { credentials_exist := false, cwd := "/app", cwd_dotenv_is_file := false
    mount_path_env := some "/mnt/gcs", mount_obs := fun _ => true }

/-- The configuration outcome of `inpC8`. -/
def outC8 : ConfigOutcome :=
  { path_bucket_mount := "/mnt/gcs"
    app_state_config := mkAppStateConfig "/mnt/gcs"
    loaded_dotenv := some "/mnt/gcs/.env"
    wait_checks := 1
    wait_sleeps := 0
    critical_warning := false }

/-- Input for the concrete deployed run used by the C10 witness. -/
def inpC10 : LifespanInput :=
  { credentials_exist := false, cwd := "/app", cwd_dotenv_is_file := false
    mount_path_env := none, mount_obs := fun _ => true }

/-- The process state after that run publishes its configuration. -/
def stateAfterC10 : ServerState :=
  { probe_succeeded := false
    app_state_config := some (mkAppStateConfig "/mnt/storage")
    module_app_config := app_config }

/-- A filesystem run where the read-back content differs from what was
written: the self-test still succeeds because it never compares them. -/
def envReadMismatch : FileIOEnv :=
  { is_file_initial := false, is_file_after_delete := false
    rnd := fun _ _ => Char.ofNat 97, is_file_after_write := true
    read_lines := ["zz"] }

/-- A filesystem run where the test file is not found after writing, so the
self-test raises. -/
def envWriteFail : FileIOEnv :=
  { is_file_initial := false, is_file_after_delete := false
    rnd := fun _ _ => Char.ofNat 97, is_file_after_write := false
    read_lines := [] }

/-- A deployed-mode run whose marker file is present from the start. -/
def inpDeployedOk : LifespanInput :=
  { credentials_exist := false, cwd := "/app", cwd_dotenv_is_file := false
    mount_path_env := none, mount_obs := fun _ => true }

/-- The configuration outcome of `inpDeployedOk`. -/
def outDeployedOk : ConfigOutcome :=
  { path_bucket_mount := "/mnt/storage"
    app_state_config := mkAppStateConfig "/mnt/storage"
    loaded_dotenv := some "/mnt/storage/.env"
    wait_checks := 1
    wait_sleeps := 0
    critical_warning := false }

/-! ### Helper lemmas -/

/-- If every check of a `waitFrom` run answers `false`, the loop exhausts its
iterations, sleeping after each failed check, and triggers the `else`
diagnostic. -/
lemma waitFrom_exhausted (obs : Nat → Bool) :
    ∀ (r i : Nat), (∀ j, j < r → obs (i + j) = false) →
      waitFrom obs i r =
        { checks := r, sleeps := r, loaded := false, critical_warning := true } := by
  intro r
  induction r with
  | zero => intro i _; rfl
  | succ r ih =>
    intro i h
    have h0 : obs i = false := by simpa using h 0 (Nat.succ_pos r)
    have hrest : waitFrom obs (i + 1) r =
        { checks := r, sleeps := r, loaded := false, critical_warning := true } := by
      refine ih (i + 1) (fun j hj => ?_)
      have := h (j + 1) (Nat.succ_lt_succ hj)
      simpa [Nat.add_assoc, Nat.add_comm 1 j] using this
    simp [waitFrom, h0, hrest]

/-- If the first `true` answer comes at relative position `k < r`, the loop
stops there: `k + 1` checks, `k` sleeps, marker loaded, no diagnostic. -/
lemma waitFrom_found (obs : Nat → Bool) :
    ∀ (k r i : Nat), k < r → (∀ j, j < k → obs (i + j) = false) →
      obs (i + k) = true →
      waitFrom obs i r =
        { checks := k + 1, sleeps := k, loaded := true, critical_warning := false } := by
  intro k
  induction k with
  | zero =>
    intro r i hr _ hk
    match r, hr with
    | r + 1, _ =>
      have h0 : obs i = true := by simpa using hk
      simp [waitFrom, h0]
  | succ k ih =>
    intro r i hr hbefore hk
    match r, hr with
    | r + 1, hr =>
      have h0 : obs i = false := by simpa using hbefore 0 (Nat.succ_pos k)
      have hrest : waitFrom obs (i + 1) r =
          { checks := k + 1, sleeps := k, loaded := true, critical_warning := false } := by
        refine ih r (i + 1) (Nat.lt_of_succ_lt_succ hr) (fun j hj => ?_) ?_
        · have := hbefore (j + 1) (Nat.succ_lt_succ hj)
          simpa [Nat.add_assoc, Nat.add_comm 1 j] using this
        · have := hk
          simpa [Nat.add_assoc, Nat.add_comm 1 k] using this
      simp [waitFrom, h0, hrest]

/-- Shape of any successfully published configuration: it is exactly the
dictionary literal of lines 296-303 over the resolved mount path, and that
path is the one chosen by the environment-detection step. -/
lemma config_ok_shape (inp : LifespanInput) (o : ConfigOutcome)
    (h : lifespanUpToConfig inp = .ok o) :
    o.app_state_config = mkAppStateConfig o.path_bucket_mount
    ∧ o.path_bucket_mount =
        (if inp.credentials_exist then inp.cwd
         else (inp.mount_path_env).getD MOUNT_PATH_DEFAULT) := by
  by_cases hc : inp.credentials_exist
  · by_cases he : inp.cwd_dotenv_is_file
    · simp only [lifespanUpToConfig, hc, he, if_true, Bool.not_true,
        Bool.false_eq_true, reduceIte, Except.ok.injEq] at h
      subst h
      simp [hc]
    · simp [lifespanUpToConfig, hc, he] at h
  · simp only [lifespanUpToConfig, hc, if_false, Bool.false_eq_true,
      reduceIte, Except.ok.injEq] at h
    subst h
    simp [hc]

/-- A `lifespan` run that reaches the `yield` did publish the configuration
computed by its configuration phase. -/
lemma lifespan_ok_upToConfig (inp : LifespanInput) (e1 e2 : FileIOEnv)
    (o : ConfigOutcome) (h : lifespan inp e1 e2 = .ok o) :
    lifespanUpToConfig inp = .ok o := by
  unfold lifespan at h
  cases hu : lifespanUpToConfig inp with
  | error e => rw [hu] at h; cases h
  | ok o2 =>
    rw [hu] at h
    dsimp only at h
    cases hf1 : gcp_fileio_test o2.path_bucket_mount e1 with
    | error e => rw [hf1] at h; cases h
    | ok r1 =>
      rw [hf1] at h
      dsimp only at h
      by_cases hc : inp.credentials_exist
      · rw [if_pos hc] at h
        cases h
        rfl
      · rw [if_neg hc] at h
        cases hf2 : gcp_fileio_test path_chroma_db_dir e2 with
        | error e => rw [hf2] at h; cases h
        | ok r2 =>
          rw [hf2] at h
          cases h
          rfl

/-- An exception escaping the mount-root self-test propagates out of
`lifespan`. -/
lemma lifespan_error_of_fileio_error (inp : LifespanInput)
    (e1 e2 : FileIOEnv) (o : ConfigOutcome) (err : String)
    (hok : lifespanUpToConfig inp = .ok o)
    (hfail : gcp_fileio_test o.path_bucket_mount e1 = .error err) :
    lifespan inp e1 e2 = .error err := by
  simp [lifespan, hok, hfail]

/-! ### Claim theorems -/

/-- Claim C2: in deployed mode, when the marker file never exists during all
`max_checks` checks of the wait loop, `lifespan` raises nothing in that
phase: it emits the critical diagnostic and still publishes the
configuration record, so the process stays alive in degraded operation. -/
theorem lifespan_deployed_marker_never_found (inp : LifespanInput)
    (hcred : inp.credentials_exist = false)
    (hobs : ∀ i, i < max_checks → inp.mount_obs i = false) :
    lifespanUpToConfig inp =
      .ok { path_bucket_mount := (inp.mount_path_env).getD MOUNT_PATH_DEFAULT
            app_state_config := mkAppStateConfig ((inp.mount_path_env).getD MOUNT_PATH_DEFAULT)
            loaded_dotenv := none
            wait_checks := max_checks
            wait_sleeps := max_checks
            critical_warning := true } := by
  have hw : lifespanWait inp.mount_obs =
      { checks := max_checks, sleeps := max_checks, loaded := false,
        critical_warning := true } := by
    refine waitFrom_exhausted inp.mount_obs max_checks 0 (fun j hj => ?_)
    simpa using hobs j hj
  simp [lifespanUpToConfig, hcred, lifespanWait] at hw ⊢
  simp [hw]

/-- Witness for C2 at a concrete input where the marker never appears. -/
theorem lifespan_deployed_marker_never_found_witness :
    (inpC2.credentials_exist = false
      ∧ ∀ i, i < max_checks → inpC2.mount_obs i = false)
    ∧ lifespanUpToConfig inpC2 =
        .ok { path_bucket_mount := "/mnt/storage"
              app_state_config := mkAppStateConfig "/mnt/storage"
              loaded_dotenv := none
              wait_checks := max_checks
              wait_sleeps := max_checks
              critical_warning := true } :=
  ⟨⟨rfl, by decide⟩,
    lifespan_deployed_marker_never_found inpC2 rfl (by decide)⟩

/-- Claim C3: in deployed mode, when the marker file first exists on the
`N`-th existence check (`1 ≤ N ≤ max_checks`), the wait loop performs exactly
`N` checks, loads the environment file on that check, exits the loop, and has
slept only between checks (`N - 1` sleeps of `check_period` seconds). -/
theorem lifespan_deployed_marker_on_check_N (inp : LifespanInput) (N : Nat)
    (hcred : inp.credentials_exist = false)
    (h1 : 1 ≤ N) (h2 : N ≤ max_checks)
    (hbefore : ∀ j, j < N - 1 → inp.mount_obs j = false)
    (hfound : inp.mount_obs (N - 1) = true) :
    lifespanUpToConfig inp =
      .ok { path_bucket_mount := (inp.mount_path_env).getD MOUNT_PATH_DEFAULT
            app_state_config := mkAppStateConfig ((inp.mount_path_env).getD MOUNT_PATH_DEFAULT)
            loaded_dotenv := some (joinpath ((inp.mount_path_env).getD MOUNT_PATH_DEFAULT) ".env")
            wait_checks := N
            wait_sleeps := N - 1
            critical_warning := false } := by
  have hk : N - 1 + 1 = N := Nat.succ_pred_eq_of_pos h1
  have hklt : N - 1 < max_checks := by
    simp only [max_checks] at h2 ⊢
    omega
  have hw : lifespanWait inp.mount_obs =
      { checks := N, sleeps := N - 1, loaded := true, critical_warning := false } := by
    have := waitFrom_found inp.mount_obs (N - 1) max_checks 0 hklt
      (fun j hj => by simpa using hbefore j hj) (by simpa using hfound)
    rw [hk] at this
    exact this
  simp [lifespanUpToConfig, hcred, lifespanWait] at hw ⊢
  simp [hw]

/-- Witness for C3 at `N = 3`, marker appearing on the third check. -/
theorem lifespan_deployed_marker_on_check_N_witness :
    (inpC3.credentials_exist = false ∧ 1 ≤ 3 ∧ 3 ≤ max_checks
      ∧ (∀ j, j < 3 - 1 → inpC3.mount_obs j = false)
      ∧ inpC3.mount_obs (3 - 1) = true)
    ∧ lifespanUpToConfig inpC3 =
        .ok { path_bucket_mount := "/mnt/storage"
              app_state_config := mkAppStateConfig "/mnt/storage"
              loaded_dotenv := some "/mnt/storage/.env"
              wait_checks := 3
              wait_sleeps := 2
              critical_warning := false } :=
  ⟨⟨rfl, by decide, by decide, by decide, rfl⟩,
    lifespan_deployed_marker_on_check_N inpC3 3 rfl (by decide) (by decide)
      (by decide) rfl⟩

/-- Claim C4: in local-development mode, a missing `.env` in the current
working directory makes `lifespan` raise before the configuration record is
published: `lifespanUpToConfig` is an error, so no `load_dotenv` and no
publication happen, and the whole `lifespan` run aborts with that
exception. -/
theorem lifespan_local_missing_env_aborts (inp : LifespanInput)
    (hcred : inp.credentials_exist = true)
    (henv : inp.cwd_dotenv_is_file = false) :
    lifespanUpToConfig inp =
      .error ("CRITICAL: .env file not found locally at "
        ++ joinpath inp.cwd ".env" ++ ". Cannot start.")
    ∧ ∀ (envMount envTmp : FileIOEnv),
        lifespan inp envMount envTmp =
          .error ("CRITICAL: .env file not found locally at "
            ++ joinpath inp.cwd ".env" ++ ". Cannot start.") := by
  have h : lifespanUpToConfig inp =
      .error ("CRITICAL: .env file not found locally at "
        ++ joinpath inp.cwd ".env" ++ ". Cannot start.") := by
    simp [lifespanUpToConfig, hcred, henv]
  exact ⟨h, fun e1 e2 => by simp [lifespan, h]⟩

/-- Witness for C4 at a concrete local-mode input. -/
theorem lifespan_local_missing_env_aborts_witness :
    (inpC4.credentials_exist = true ∧ inpC4.cwd_dotenv_is_file = false)
    ∧ lifespanUpToConfig inpC4 =
        .error "CRITICAL: .env file not found locally at /home/user/project/.env. Cannot start."
    ∧ lifespan inpC4 envOk envOk =
        .error "CRITICAL: .env file not found locally at /home/user/project/.env. Cannot start." :=
  ⟨⟨rfl, rfl⟩,
    (lifespan_local_missing_env_aborts inpC4 rfl rfl).1,
    (lifespan_local_missing_env_aborts inpC4 rfl rfl).2 envOk envOk⟩

/-- With the flag already set, `startup_probe` returns the confirmed
response without consulting the filesystem. -/
lemma startup_probe_flag_true (e : Bool) :
    startup_probe true e = probeConfirmedCall := rfl

/-- A successful `startup_probe` call leaves the flag set. -/
lemma startup_probe_isOk_flag (f e : Bool)
    (h : (startup_probe f e).result.isOk = true) :
    (startup_probe f e).probe_succeeded = true := by
  revert h
  cases f <;> cases e <;> decide

/-- Every call in the probe trace is a `startup_probe` call, so a successful
trace entry leaves the flag set. -/
lemma runProbeAt_isOk_flag (flag : Bool) (obs : Nat → Bool) (i : Nat)
    (h : (runProbeAt flag obs i).result.isOk = true) :
    (runProbeAt flag obs i).probe_succeeded = true := by
  cases i with
  | zero => exact startup_probe_isOk_flag flag (obs 0) h
  | succ n =>
    exact startup_probe_isOk_flag (runProbeAt flag obs n).probe_succeeded
      (obs (n + 1)) h

/-- Once set along the trace, the flag stays set. -/
lemma runProbeAt_flag_stays (flag : Bool) (obs : Nat → Bool) :
    ∀ (d n : Nat), (runProbeAt flag obs n).probe_succeeded = true →
      (runProbeAt flag obs (n + d)).probe_succeeded = true := by
  intro d
  induction d with
  | zero => intro n h; exact h
  | succ d ih =>
    intro n h
    have hd := ih n h
    show (startup_probe (runProbeAt flag obs (n + d)).probe_succeeded
      (obs (n + d + 1))).probe_succeeded = true
    rw [hd]
    rfl

/-- Claim C1: the readiness probe is monotonic.  With the flag set,
`startup_probe` returns the confirmed success with zero filesystem checks; no
request handler ever resets the flag; and along any trace of `/ready` calls,
once some call has returned success, every later call returns the confirmed
success without any filesystem check, whatever the marker file does. -/
theorem ready_probe_monotonic :
    (∀ e : Bool, startup_probe true e = probeConfirmedCall)
    ∧ (∀ (req : Request) (s : ServerState), s.probe_succeeded = true →
        ((handle req s).1).probe_succeeded = true)
    ∧ ∀ (flag : Bool) (obs : Nat → Bool) (i j : Nat), i < j →
        (runProbeAt flag obs i).result.isOk = true →
        runProbeAt flag obs j = probeConfirmedCall := by
  refine ⟨fun e => rfl, ?_, ?_⟩
  · intro req s h
    cases req with
    | ready e =>
      show (startup_probe s.probe_succeeded e).probe_succeeded = true
      rw [h]
      rfl
    | root key =>
      cases hcfg : s.app_state_config <;> simp [handle, hcfg, h]
    | calculator input_data => exact h
  · intro flag obs i j hij hok
    obtain ⟨d, rfl⟩ : ∃ d, j = i + d + 1 := by
      refine ⟨j - i - 1, ?_⟩
      omega
    have hflag : (runProbeAt flag obs (i + d)).probe_succeeded = true :=
      runProbeAt_flag_stays flag obs d i (runProbeAt_isOk_flag flag obs i hok)
    show startup_probe (runProbeAt flag obs (i + d)).probe_succeeded
      (obs (i + d + 1)) = probeConfirmedCall
    rw [hflag]
    rfl

/-- Witness for C1: the marker exists only for the second call; the second
call succeeds and the fourth call (after the marker is gone again) returns
the confirmed success with zero filesystem checks. -/
theorem ready_probe_monotonic_witness :
    (1 < 3 ∧ (runProbeAt false (fun n => n == 1) 1).result.isOk = true)
    ∧ runProbeAt false (fun n => n == 1) 3 = probeConfirmedCall :=
  ⟨⟨by decide, by decide⟩,
    ready_probe_monotonic.2.2 false (fun n => n == 1) 1 3 (by decide) (by decide)⟩

/-- Claim C5: a `/ready` call with the flag still false performs exactly one
filesystem existence check and no sleep; if the marker file is absent it
raises `HTTPException(503)` with an error detail and leaves the flag false;
if present it sets the flag and returns status `"ok"` with a message.  Its
only effect on the process state is the flag transition. -/
theorem ready_probe_flag_false_behavior :
    (∀ e : Bool, startup_probe false e =
      if e then
        { result := .ok { status := "ok"
                          message := "FUSE mount ready, application is starting up." }
          probe_succeeded := true, fsChecks := 1, sleeps := 0 }
      else
        { result := .httpError 503 "Waiting for GCS FUSE mount to stabilize."
          probe_succeeded := false, fsChecks := 1, sleeps := 0 })
    ∧ ∀ (e : Bool) (s : ServerState),
        (handle (.ready e) s).1 =
          { s with probe_succeeded := (startup_probe s.probe_succeeded e).probe_succeeded }
        ∧ (handle (.ready e) s).1.app_state_config = s.app_state_config
        ∧ (handle (.ready e) s).1.module_app_config = s.module_app_config := by
  constructor
  · intro e
    cases e <;> rfl
  · intro e s
    exact ⟨rfl, rfl, rfl⟩

/-- Claim C7: for every input, `/api/calculator` returns
`num1 + num2` whatever `operation` is and never raises; the message reports a
successful sum for `"add"` and an unsupported-operation fallback otherwise;
in particular `num1 = 10, num2 = 3, operation = "multiply"` yields `13`. -/
theorem calculator_fallback_addition :
    (∀ (num1 num2 : Rat) (operation : String),
      (simple_calculator { num1 := num1, num2 := num2, operation := operation }).result
        = num1 + num2
      ∧ (simple_calculator { num1 := num1, num2 := num2, operation := operation }).message
        = (if operation = "add" then
            "Successfully calculated the sum of " ++ toString num1
              ++ " and " ++ toString num2 ++ "."
          else
            "Operation " ++ squote ++ operation ++ squote
              ++ " not supported yet. Defaulting to addition."))
    ∧ simple_calculator { num1 := 10, num2 := 3, operation := "multiply" }
        = { result := 13
            message := "Operation " ++ squote ++ "multiply" ++ squote
              ++ " not supported yet. Defaulting to addition." } := by
  constructor
  · intro n1 n2 op
    by_cases h : op = "add" <;> simp [simple_calculator, h]
  · simp [simple_calculator]
    norm_num

/-- Claim C8: whenever the configuration step of `lifespan` completes, the
published `app.state.app_config` record has exactly the literal values of
lines 296-303 — provider `"openai"`, embedding model
`"text-embedding-3-small"`, iteration limit `3`, a Chroma path rooted under
the local ephemeral `/tmp` directory (not under the mount), the fixed
collection name, and `bucket_mount_path` equal to the mount root resolved by
environment detection — and no request handler ever writes that record. -/
theorem app_state_config_published_record :
    (∀ (inp : LifespanInput) (o : ConfigOutcome),
      lifespanUpToConfig inp = .ok o →
        o.app_state_config =
          { llm_provider := "openai"
            embedding_model := "text-embedding-3-small"
            max_step_iterations := 3
            path_chroma_db := some (joinpath "/tmp" "chroma_langchain_db")
            chroma_collection_name := "Biography_of_Christopher_Diaz"
            bucket_mount_path := some o.path_bucket_mount }
        ∧ o.path_bucket_mount =
            (if inp.credentials_exist then inp.cwd
             else (inp.mount_path_env).getD MOUNT_PATH_DEFAULT))
    ∧ ∀ (req : Request) (s : ServerState),
        (handle req s).1.app_state_config = s.app_state_config := by
  constructor
  · intro inp o h
    have hs := config_ok_shape inp o h
    exact ⟨by rw [hs.1]; rfl, hs.2⟩
  · intro req s
    cases req with
    | ready e => rfl
    | root key => cases hcfg : s.app_state_config <;> simp [handle, hcfg]
    | calculator input_data => rfl

/-- Witness for C8 at a concrete deployed run. -/
theorem app_state_config_published_record_witness :
    lifespanUpToConfig inpC8 = .ok outC8
    ∧ (outC8.app_state_config =
        { llm_provider := "openai"
          embedding_model := "text-embedding-3-small"
          max_step_iterations := 3
          path_chroma_db := some (joinpath "/tmp" "chroma_langchain_db")
          chroma_collection_name := "Biography_of_Christopher_Diaz"
          bucket_mount_path := some outC8.path_bucket_mount }
      ∧ outC8.path_bucket_mount =
          (if inpC8.credentials_exist then inpC8.cwd
           else (inpC8.mount_path_env).getD MOUNT_PATH_DEFAULT)) :=
  ⟨by decide,
    app_state_config_published_record.1 inpC8 outC8 (by decide)⟩

/-- Counterexample to C9 as stated: with `OPENAI_API_KEY` present in the
environment but equal to the empty string, `read_root` returns the
missing-key message, not the normal one (Python truthiness of
`if openai_key_val:`), though the status is still `"ok"`. -/
theorem read_root_counterexample :
    read_root (mkAppStateConfig "/mnt/storage") (some "") =
      { status := "ok"
        message := "Server is running, BUT OPENAI_API_KEY not found!." }
    ∧ ({ status := "ok"
         message := "Server is running, BUT OPENAI_API_KEY not found!." } : StatusResponse)
      ≠ { status := "ok"
          message := "Server is running. See /docs for API schema." } :=
  ⟨by decide, by decide⟩

/-- Claim C9 (amended): every `/` call returns status `"ok"` (a success, never
an error response): with the key absent, or present but empty, the message
notes the missing key; with the key present and non-empty, the message is the
normal one. -/
theorem read_root_amended (cfg : AppConfig) (key : Option String) :
    (read_root cfg key).status = "ok"
    ∧ (key = none →
        read_root cfg key =
          { status := "ok"
            message := "Server is running, BUT OPENAI_API_KEY not found!." })
    ∧ (∀ s, key = some s → s ≠ "" →
        read_root cfg key =
          { status := "ok"
            message := "Server is running. See /docs for API schema." })
    ∧ (key = some "" →
        read_root cfg key =
          { status := "ok"
            message := "Server is running, BUT OPENAI_API_KEY not found!." }) := by
  refine ⟨?_, ?_, ?_, ?_⟩
  · cases key with
    | none => rfl
    | some s => by_cases h : s = "" <;> simp [read_root, pyTruthy, h]
  · intro h; subst h; rfl
  · intro s h hne
    subst h
    simp [read_root, pyTruthy, hne]
  · intro h; subst h; rfl

/-- Witness for C9 (amended) at a present, non-empty key. -/
theorem read_root_amended_witness :
    ((some "sk-test" : Option String) = some "sk-test" ∧ "sk-test" ≠ "")
    ∧ read_root app_config (some "sk-test") =
        { status := "ok"
          message := "Server is running. See /docs for API schema." } :=
  ⟨⟨rfl, by decide⟩,
    (read_root_amended app_config (some "sk-test")).2.2.1 "sk-test" rfl (by decide)⟩

/-- Claim C10: the module-level `app_config` dictionary keeps its load-time
value — including `path_chroma_db = None` and `bucket_mount_path = None` —
for the whole process lifetime: no request handler touches it, and a
completed `lifespan` publishes a distinct fresh record on
`app.state.app_config` (one that differs from the module-level value) while
leaving the module-level dictionary unchanged. -/
theorem module_app_config_unchanged :
    app_config =
      { llm_provider := "openai"
        embedding_model := "text-embedding-3-small"
        max_step_iterations := 3
        path_chroma_db := none
        chroma_collection_name := "Biography_of_Christopher_Diaz"
        bucket_mount_path := none }
    ∧ (∀ (req : Request) (s : ServerState),
        (handle req s).1.module_app_config = s.module_app_config)
    ∧ ∀ (inp : LifespanInput) (e1 e2 : FileIOEnv) (s sNew : ServerState),
        lifespanOp inp e1 e2 s = .ok sNew →
          sNew.module_app_config = s.module_app_config
          ∧ sNew.app_state_config ≠ some app_config := by
  refine ⟨rfl, ?_, ?_⟩
  · intro req s
    cases req with
    | ready e => rfl
    | root key => cases hcfg : s.app_state_config <;> simp [handle, hcfg]
    | calculator input_data => rfl
  · intro inp e1 e2 s sNew h
    unfold lifespanOp at h
    cases hl : lifespan inp e1 e2 with
    | error err => rw [hl] at h; cases h
    | ok o =>
      rw [hl] at h
      cases h
      have hcfg : o.app_state_config = mkAppStateConfig o.path_bucket_mount :=
        (config_ok_shape inp o (lifespan_ok_upToConfig inp e1 e2 o hl)).1
      refine ⟨rfl, ?_⟩
      simp [hcfg, mkAppStateConfig, app_config]

/-- Witness for C10 at a concrete completed `lifespan` run. -/
theorem module_app_config_unchanged_witness :
    lifespanOp inpC10 envOk envOk initialState = .ok stateAfterC10
    ∧ (stateAfterC10.module_app_config = initialState.module_app_config
      ∧ stateAfterC10.app_state_config ≠ some app_config) :=
  ⟨by decide,
    module_app_config_unchanged.2.2 inpC10 envOk envOk initialState stateAfterC10
      (by decide)⟩

/-- Counterexample to C6 as stated, in both halves.  First, the self-test
performs no byte-for-byte verification: on a run whose read-back (`["zz"]`)
differs from the five written lines it still returns success.  Second, a
self-test failure does abort startup: `lifespan` has no handler around
`gcp_fileio_test`, so on a run where the write fails the exception escapes
`lifespan` and the ready-for-traffic `yield` is never reached. -/
theorem fileio_selftest_counterexample :
    (gcp_fileio_test "/mnt/storage" envReadMismatch =
        .ok { written := writtenLines envReadMismatch, printed := ["zz"] }
      ∧ ["zz"] ≠ writtenLines envReadMismatch)
    ∧ lifespan inpDeployedOk envWriteFail envReadMismatch =
        .error "File not found /mnt/storage/text_file_utf8.txt" :=
  ⟨⟨by decide, by decide⟩, by decide⟩

/-- Claim C6 (amended): the startup self-test writes a fixed-size set of
sample records — five 40-character lines — and reads them back, printing the
stripped non-blank lines without comparing them to what was written; a
successful run reports exactly the written lines; and a failure of the
self-test on the mount root aborts startup: the exception propagates out of
`lifespan`, so the ready-for-traffic `yield` is not reached. -/
theorem fileio_selftest_amended :
    (∀ env : FileIOEnv,
      (writtenLines env).length = 5 ∧ ∀ s ∈ writtenLines env, s.length = 40)
    ∧ (∀ (path : String) (env : FileIOEnv) (r : FileIOResult),
        gcp_fileio_test path env = .ok r → r.written = writtenLines env)
    ∧ ∀ (inp : LifespanInput) (e1 e2 : FileIOEnv) (o : ConfigOutcome)
        (err : String),
        lifespanUpToConfig inp = .ok o →
        gcp_fileio_test o.path_bucket_mount e1 = .error err →
        lifespan inp e1 e2 = .error err := by
  refine ⟨?_, ?_, ?_⟩
  · intro env
    constructor
    · simp [writtenLines]
    · intro s hs
      simp only [writtenLines, List.mem_map, List.mem_range] at hs
      obtain ⟨l, _, rfl⟩ := hs
      show (String.mk ((List.range 40).map (env.rnd l))).length = 40
      simp [String.length]
  · intro path env r h
    unfold gcp_fileio_test at h
    by_cases hd : env.is_file_after_delete
    · rw [if_pos hd] at h; cases h
    · rw [if_neg hd] at h
      by_cases hw : env.is_file_after_write
      · simp only [hw, Bool.not_true, Bool.false_eq_true, reduceIte,
          Except.ok.injEq] at h
        rw [← h]
      · simp [hw] at h
  · intro inp e1 e2 o err hok hfail
    exact lifespan_error_of_fileio_error inp e1 e2 o err hok hfail

/-- Witness for C6 (amended) at the concrete failing run. -/
theorem fileio_selftest_amended_witness :
    (lifespanUpToConfig inpDeployedOk = .ok outDeployedOk
      ∧ gcp_fileio_test outDeployedOk.path_bucket_mount envWriteFail =
          .error "File not found /mnt/storage/text_file_utf8.txt")
    ∧ lifespan inpDeployedOk envWriteFail envWriteFail =
        .error "File not found /mnt/storage/text_file_utf8.txt" :=
  ⟨⟨by decide, by decide⟩,
    fileio_selftest_amended.2.2 inpDeployedOk envWriteFail envWriteFail
      outDeployedOk "File not found /mnt/storage/text_file_utf8.txt"
      (by decide) (by decide)⟩

end GcpMcp
